/-
Verification of the ViT feature extractor (`extractors/base.py`):
geometry of patch counts, per-variant constants, qkv reshape/permute
decomposition, cosine-similarity maps, and the hook-capture lifecycle.

Shallow embedding conventions:
* image shapes are 4-tuples of naturals (batch, channels, height, width);
* tensors are shape-carrying total functions with rational entries
  (`T2`, `T3`, `T4`); Python `reshape`/`permute`/indexing become explicit
  index arithmetic on the row-major flattening;
* the similarity functions work over the reals (exact model of the
  floating-point arithmetic, including the `clamp(·, min=eps)`);
* the mutable hook state (`hook_handlers`, `layers_dict`, `outputs_dict`)
  becomes explicit state passing on `HooksState`; a forward evaluation of
  the external transformer is abstracted as a map from (stage, capture
  kind) to the tensor produced at that computation point.
-/
import Mathlib

namespace SpliceViT

/-- Image shape `(batch, channels, height, width)` as unpacked by
`b, c, h, w = input_img_shape`. -/
structure ImgShape where
  b : ℕ
  c : ℕ
  h : ℕ
  w : ℕ
deriving DecidableEq

/-- The closed set of model variants, the keys of `VitExtractor.MODE`
(`{'small': vit.vit_small, 'base': vit.vit_base, 'tiny': vit.vit_tiny}`). -/
inductive Mode where
  | small
  | base
  | tiny
deriving DecidableEq

/-- The extractor's own immutable configuration: `self.mode` and
`self.patch_size` set in `__init__`.  The wrapped torch model and device
are external collaborators and are abstracted away. -/
structure VitExtractor where
  mode : Mode
  patch_size : ℕ
deriving DecidableEq

/-- `VitExtractor.get_patch_size`. -/
def get_patch_size (e : VitExtractor) : ℕ := e.patch_size

/-- `VitExtractor.get_width_patch_num`: `w // patch_size`. -/
def get_width_patch_num (e : VitExtractor) (s : ImgShape) : ℕ :=
  s.w / get_patch_size e

/-- `VitExtractor.get_height_patch_num`: `h // patch_size`. -/
def get_height_patch_num (e : VitExtractor) (s : ImgShape) : ℕ :=
  s.h / get_patch_size e

/-- `VitExtractor.get_patch_num`:
`1 + height_patch_num * width_patch_num`. -/
def get_patch_num (e : VitExtractor) (s : ImgShape) : ℕ :=
  1 + get_height_patch_num e s * get_width_patch_num e s

/-- `VitExtractor.get_head_num`: `6 if mode == 'small' else 12`. -/
def get_head_num (e : VitExtractor) : ℕ :=
  if e.mode = Mode.small then 6 else 12

/-- `VitExtractor.get_embedding_dim`: `384 if mode == 'small' else 768`. -/
def get_embedding_dim (e : VitExtractor) : ℕ :=
  if e.mode = Mode.small then 384 else 768

/-! ### Tensors -/

/-- A rank-2 tensor: shape `(s0, s1)` with rational entries, total in the
indices (entries outside the shape are irrelevant padding). -/
structure T2 where
  s0 : ℕ
  s1 : ℕ
  entry : ℕ → ℕ → ℚ

/-- A rank-3 tensor. -/
structure T3 where
  s0 : ℕ
  s1 : ℕ
  s2 : ℕ
  entry : ℕ → ℕ → ℕ → ℚ

/-- A rank-4 tensor. -/
structure T4 where
  s0 : ℕ
  s1 : ℕ
  s2 : ℕ
  s3 : ℕ
  entry : ℕ → ℕ → ℕ → ℕ → ℚ

instance : Inhabited T2 := ⟨⟨0, 0, fun _ _ => 0⟩⟩

instance : Inhabited T3 := ⟨⟨0, 0, 0, fun _ _ _ => 0⟩⟩

instance : Inhabited T4 := ⟨⟨0, 0, 0, 0, fun _ _ _ _ => 0⟩⟩

/-- Tensor equality: same shape and same entries at every in-range index
(this is what `torch.equal` observes). -/
def T2.Eq (a b : T2) : Prop :=
  a.s0 = b.s0 ∧ a.s1 = b.s1 ∧
    ∀ i < a.s0, ∀ j < a.s1, a.entry i j = b.entry i j

instance (a b : T2) : Decidable (T2.Eq a b) := by
  unfold T2.Eq
  infer_instance

/-- Python `t[0]` on a rank-3 tensor: the slice along the first (batch)
axis, shape `(s1, s2)`. -/
def T3.slice0 (t : T3) : T2 :=
  ⟨t.s1, t.s2, fun n d => t.entry 0 n d⟩

/-- Python `t[:, 0, :]` on a rank-3 tensor: index 0 along the middle
(token) axis, keeping the batch axis; shape `(s0, s2)`. -/
def T3.sliceTok0 (t : T3) : T2 :=
  ⟨t.s0, t.s2, fun b d => t.entry b 0 d⟩

/-! ### Similarity engine (`attn_cosine_sim`, `cross_cos_sim`)

The source receives a rank-4 tensor `(1, 1, t, m)`, drops the leading
axis (`x = x[0]`), takes per-token L2 norms over the channel axis
(`dim=2`), and divides the pairwise dot-product matrix by the outer
product of norms clamped below at `eps`.  We model the tensor as a total
function of four indices and parametrise by `m`, the channel length. -/

/-- Dot product of two channel vectors of length `m`
(one entry of `x @ x.permute(0, 2, 1)`). -/
noncomputable def dotR (m : ℕ) (u v : ℕ → ℝ) : ℝ :=
  ∑ k ∈ Finset.range m, u k * v k

/-- Per-token L2 norm, `x.norm(dim=2)`. -/
noncomputable def tnorm (m : ℕ) (u : ℕ → ℝ) : ℝ :=
  Real.sqrt (dotR m u u)

/-- The default `eps=1e-08` of `attn_cosine_sim` / `cross_cos_sim`. -/
noncomputable def simEps : ℝ := 1 / 10 ^ 8

/-- `attn_cosine_sim(x, eps)`: after `x = x[0]`, entry `(b, i, j)` of the
result is `dot(x[b,i], x[b,j]) / clamp(‖x[b,i]‖ * ‖x[b,j]‖, min=eps)`. -/
noncomputable def attn_cosine_sim (eps : ℝ) (m : ℕ)
    (x4 : ℕ → ℕ → ℕ → ℕ → ℝ) (b i j : ℕ) : ℝ :=
  let x := x4 0
  dotR m (x b i) (x b j) / max (tnorm m (x b i) * tnorm m (x b j)) eps

/-- `cross_cos_sim(x, y, eps)`: after `x, y = x[0], y[0]`, entry
`(b, i, j)` is `dot(x[b,i], y[b,j]) / clamp(‖x[b,i]‖ * ‖y[b,j]‖, min=eps)`. -/
noncomputable def cross_cos_sim (eps : ℝ) (m : ℕ)
    (x4 y4 : ℕ → ℕ → ℕ → ℕ → ℝ) (b i j : ℕ) : ℝ :=
  let x := x4 0
  let y := y4 0
  dotR m (x b i) (y b j) / max (tnorm m (x b i) * tnorm m (y b j)) eps

/-! ### Hook-capture state machine

`hook_handlers`, `layers_dict` and `outputs_dict` become an explicit
state record, polymorphic in the captured tensor type `α`.  A handler is
identified by the `(stage, kind)` pair it observes.  The external
transformer's forward evaluation on one image is abstracted as a map
`M : ℕ → Key → α` giving the tensor produced at each stage's computation
point of each kind; during `forwardPass` every registered handler appends
its stage's tensor to its kind's buffer, in stage order. -/

/-- The capture kinds, `KEY_LIST = [BLOCK_KEY, ATTN_KEY, PATCH_IMD_KEY,
QKV_KEY]`. -/
inductive Key where
  | block
  | attn
  | patch_imd
  | qkv
deriving DecidableEq

/-- The mutable extractor state: hook handler list and the two
dictionaries keyed by capture kind. -/
structure HooksState (α : Type) where
  hook_handlers : List (ℕ × Key)
  layers_dict : Key → List ℕ
  outputs_dict : Key → List α

/-- The stage list `[0, 1, 2, 3, 4, 5, 6, 7, 8, 9, 10, 11]` that
`_init_hooks_data` assigns to each kind. -/
def allStages : List ℕ := [0, 1, 2, 3, 4, 5, 6, 7, 8, 9, 10, 11]

/-- `_init_hooks_data`: each kind's layer selection becomes the full
stage list and each kind's output buffer becomes empty. -/
def init_hooks_data {α : Type} (s : HooksState α) : HooksState α :=
  { s with layers_dict := fun _ => allStages, outputs_dict := fun _ => [] }

/-- The handlers `_register_hooks` attaches for one block, in source
order: block hook, attn (`attn_drop`) hook, qkv hook, patch_imd hook —
each only if the block index is selected for that kind. -/
def hooksForBlock {α : Type} (s : HooksState α) (i : ℕ) : List (ℕ × Key) :=
  (if i ∈ s.layers_dict Key.block then [(i, Key.block)] else []) ++
  (if i ∈ s.layers_dict Key.attn then [(i, Key.attn)] else []) ++
  (if i ∈ s.layers_dict Key.qkv then [(i, Key.qkv)] else []) ++
  (if i ∈ s.layers_dict Key.patch_imd then [(i, Key.patch_imd)] else [])

/-- `_register_hooks` over a model with `L` blocks. -/
def register_hooks {α : Type} (L : ℕ) (s : HooksState α) : HooksState α :=
  { s with hook_handlers :=
      s.hook_handlers ++ (List.range L).flatMap (hooksForBlock s) }

/-- `_clear_hooks`: every handler is removed and the handler list reset. -/
def clear_hooks {α : Type} (s : HooksState α) : HooksState α :=
  { s with hook_handlers := [] }

/-- `self.model(input_img)` with hooks attached: for each kind, the
stages with a registered handler of that kind append their output to that
kind's buffer, in stage order. -/
def capturedAt {α : Type} (L : ℕ) (M : ℕ → Key → α) (s : HooksState α)
    (k : Key) : List α :=
  ((List.range L).filter (fun i => (i, k) ∈ s.hook_handlers)).map
    (fun i => M i k)

/-- `self.model(input_img)` with hooks attached (continued): the state
after the forward evaluation. -/
def forwardPass {α : Type} (L : ℕ) (M : ℕ → Key → α) (s : HooksState α) :
    HooksState α :=
  { s with outputs_dict := fun k => s.outputs_dict k ++ capturedAt L M s k }

/-- The state right after `__init__`: empty handler list, then
`_init_hooks_data`. -/
def initialState (α : Type) : HooksState α :=
  init_hooks_data
    { hook_handlers := [], layers_dict := fun _ => [],
      outputs_dict := fun _ => [] }

/-- An input image, abstracted for the extractor: its shape together with
what the external transformer produces at each (stage, kind) computation
point when evaluated on it. -/
structure Img (α : Type) where
  shape : ImgShape
  M : ℕ → Key → α

/-- `get_feature_from_input`: register, forward, read the block buffer,
clear hooks, reset hook data; returns the captured list and the final
state. -/
def get_feature_from_input {α : Type} (L : ℕ) (img : Img α)
    (s : HooksState α) : List α × HooksState α :=
  let s1 := register_hooks L s
  let s2 := forwardPass L img.M s1
  let feature := s2.outputs_dict Key.block
  (feature, init_hooks_data (clear_hooks s2))

/-- `get_qkv_feature_from_input`. -/
def get_qkv_feature_from_input {α : Type} (L : ℕ) (img : Img α)
    (s : HooksState α) : List α × HooksState α :=
  let s1 := register_hooks L s
  let s2 := forwardPass L img.M s1
  let feature := s2.outputs_dict Key.qkv
  (feature, init_hooks_data (clear_hooks s2))

/-- `get_attn_feature_from_input`. -/
def get_attn_feature_from_input {α : Type} (L : ℕ) (img : Img α)
    (s : HooksState α) : List α × HooksState α :=
  let s1 := register_hooks L s
  let s2 := forwardPass L img.M s1
  let feature := s2.outputs_dict Key.attn
  (feature, init_hooks_data (clear_hooks s2))

/-! ### Projection decomposer

`qkv.reshape(patch_num, 3, head_num, embedding_dim // head_num)
     .permute(1, 2, 0, 3)[t]`:
element `(h, n, d)` of slice `t` is element
`n·(3·H·Dh) + t·(H·Dh) + h·Dh + d` of the row-major flattening of the
captured tensor, which we re-chunk by the tensor's own trailing length. -/

/-- The reshape/permute/select common to
`get_queries_from_qkv` / `get_keys_from_qkv` / `get_values_from_qkv`,
with `t` the index selected on the triplet axis. -/
def reshapeQkv (N H Dh : ℕ) (qkv : T2) (t : ℕ) : T3 :=
  ⟨H, N, Dh, fun h n d =>
    let k := n * (3 * (H * Dh)) + (t * (H * Dh) + (h * Dh + d))
    qkv.entry (k / qkv.s1) (k % qkv.s1)⟩

/-- `get_queries_from_qkv`. -/
def get_queries_from_qkv (e : VitExtractor) (qkv : T2) (s : ImgShape) : T3 :=
  reshapeQkv (get_patch_num e s) (get_head_num e)
    (get_embedding_dim e / get_head_num e) qkv 0

/-- `get_keys_from_qkv`. -/
def get_keys_from_qkv (e : VitExtractor) (qkv : T2) (s : ImgShape) : T3 :=
  reshapeQkv (get_patch_num e s) (get_head_num e)
    (get_embedding_dim e / get_head_num e) qkv 1

/-- `get_values_from_qkv`. -/
def get_values_from_qkv (e : VitExtractor) (qkv : T2) (s : ImgShape) : T3 :=
  reshapeQkv (get_patch_num e s) (get_head_num e)
    (get_embedding_dim e / get_head_num e) qkv 2

/-- `get_keys_from_input`: qkv capture at `layer_num`, then key slice. -/
def get_keys_from_input (e : VitExtractor) (L : ℕ) (img : Img T2)
    (layer : ℕ) (s : HooksState T2) : T3 × HooksState T2 :=
  let r := get_qkv_feature_from_input L img s
  (get_keys_from_qkv e (r.1.getD layer default) img.shape, r.2)

/-- `get_values_from_input`. -/
def get_values_from_input (e : VitExtractor) (L : ℕ) (img : Img T2)
    (layer : ℕ) (s : HooksState T2) : T3 × HooksState T2 :=
  let r := get_qkv_feature_from_input L img s
  (get_values_from_qkv e (r.1.getD layer default) img.shape, r.2)

/-- `get_queries_from_input`. -/
def get_queries_from_input (e : VitExtractor) (L : ℕ) (img : Img T2)
    (layer : ℕ) (s : HooksState T2) : T3 × HooksState T2 :=
  let r := get_qkv_feature_from_input L img s
  (get_queries_from_qkv e (r.1.getD layer default) img.shape, r.2)

/-- `get_tokens_from_input`: the block output at `layer_num`. -/
def get_tokens_from_input (L : ℕ) (img : Img T3) (layer : ℕ)
    (s : HooksState T3) : T3 × HooksState T3 :=
  let r := get_feature_from_input L img s
  (r.1.getD layer default, r.2)

/-- `get_cls_token_from_input`:
`get_feature_from_input(input_img)[layer_num][:, 0, :]`. -/
def get_cls_token_from_input (L : ℕ) (img : Img T3) (layer : ℕ)
    (s : HooksState T3) : T2 × HooksState T3 :=
  let r := get_feature_from_input L img s
  (T3.sliceTok0 (r.1.getD layer default), r.2)

/-- `keys.transpose(0, 1).reshape(t, h * d)` applied to an `(h, t, d)`
tensor: the head-major collapse of the per-head channels. -/
def concatHeads (x : T3) : T2 :=
  ⟨x.s1, x.s0 * x.s2, fun n j => x.entry (j / x.s2) n (j % x.s2)⟩

/-- `concatenated[None, None, ...]` followed by the cast of the exact
rational entries into the reals: a rank-4 total function whose two
leading (unsqueezed) axes are inert. -/
def lift4 (t : T2) : ℕ → ℕ → ℕ → ℕ → ℝ :=
  fun _ _ i j => ((t.entry i j : ℚ) : ℝ)

/-- `get_attentions_from_input`: the raw per-head attention weights at
`layer_num` and, when `return_mean` is set, their sum over the head axis
(`dim=1`) divided by `get_head_num()`. -/
def get_attentions_from_input (e : VitExtractor) (L : ℕ) (img : Img T4)
    (layer : ℕ) (return_mean : Bool) (s : HooksState T4) :
    (T4 × Option T3) × HooksState T4 :=
  let r := get_attn_feature_from_input L img s
  let w := r.1.getD layer default
  let wmean : T3 :=
    ⟨w.s0, w.s2, w.s3, fun b i j =>
      (∑ h ∈ Finset.range w.s1, w.entry b h i j) / (get_head_num e : ℚ)⟩
  ((w, if return_mean then some wmean else none), r.2)

/-- `get_keys_self_sim_from_input`. -/
noncomputable def get_keys_self_sim_from_input (e : VitExtractor) (L : ℕ)
    (img : Img T2) (layer : ℕ) (s : HooksState T2) :
    (ℕ → ℕ → ℕ → ℝ) × HooksState T2 :=
  let r := get_keys_from_input e L img layer s
  let conc := concatHeads r.1
  (attn_cosine_sim simEps conc.s1 (lift4 conc), r.2)

/-- `get_values_self_sim_from_input`. -/
noncomputable def get_values_self_sim_from_input (e : VitExtractor) (L : ℕ)
    (img : Img T2) (layer : ℕ) (s : HooksState T2) :
    (ℕ → ℕ → ℕ → ℝ) × HooksState T2 :=
  let r := get_values_from_input e L img layer s
  let conc := concatHeads r.1
  (attn_cosine_sim simEps conc.s1 (lift4 conc), r.2)

/-- `get_queries_self_sim_from_input`. -/
noncomputable def get_queries_self_sim_from_input (e : VitExtractor) (L : ℕ)
    (img : Img T2) (layer : ℕ) (s : HooksState T2) :
    (ℕ → ℕ → ℕ → ℝ) × HooksState T2 :=
  let r := get_queries_from_input e L img layer s
  let conc := concatHeads r.1
  (attn_cosine_sim simEps conc.s1 (lift4 conc), r.2)

/-- `get_tokens_self_sim_from_input`. -/
noncomputable def get_tokens_self_sim_from_input (L : ℕ) (img : Img T3)
    (layer : ℕ) (s : HooksState T3) : (ℕ → ℕ → ℕ → ℝ) × HooksState T3 :=
  let r := get_tokens_from_input L img layer s
  let conc := concatHeads r.1
  (attn_cosine_sim simEps conc.s1 (lift4 conc), r.2)

/-- The failure raised by the shape assertion in
`get_keys_cross_sim_from_input` (the spec's `ShapeMismatchError`). -/
inductive ExtractError where
  | shapeMismatch
deriving DecidableEq

/-- `get_keys_cross_sim_from_input`: keys of both images at `layer_num`;
`assert src_keys.shape == tgt_keys.shape` fails before the similarity is
computed; otherwise both key tensors are collapsed and handed to
`cross_cos_sim`. -/
noncomputable def get_keys_cross_sim_from_input (e : VitExtractor) (L : ℕ)
    (src tgt : Img T2) (layer : ℕ) (s : HooksState T2) :
    Except ExtractError (ℕ → ℕ → ℕ → ℝ) × HooksState T2 :=
  let r1 := get_keys_from_input e L src layer s
  let r2 := get_keys_from_input e L tgt layer r1.2
  let srcKeys := r1.1
  let tgtKeys := r2.1
  (if (srcKeys.s0, srcKeys.s1, srcKeys.s2)
      = (tgtKeys.s0, tgtKeys.s1, tgtKeys.s2) then
    Except.ok (cross_cos_sim simEps (concatHeads srcKeys).s1
      (lift4 (concatHeads srcKeys)) (lift4 (concatHeads tgtKeys)))
  else
    Except.error ExtractError.shapeMismatch, r2.2)

/-! ### Auxiliary definitions used by the verification -/

/-- The reset/default state the spec requires after every public
operation: no attached handlers, every capture buffer empty, every
kind's selection back to the full stage list. -/
def resetState {α : Type} (s : HooksState α) : Prop :=
  s.hook_handlers = [] ∧ (∀ k, s.outputs_dict k = []) ∧
    (∀ k, s.layers_dict k = allStages)

/-- Re-concatenating decomposed query/key/value along the triplet axis,
inverting the permute and the reshape: stack `(q, k, v)` to
`(3, H, N, Dh)`, permute back to `(N, 3, H, Dh)` and flatten the last
three axes, giving a `(N, 3·H·Dh)` tensor. -/
def stackQKV (q k v : T3) : T2 :=
  ⟨q.s1, 3 * (q.s0 * q.s2), fun n j =>
    let hd := q.s0 * q.s2
    (if j / hd = 0 then q else if j / hd = 1 then k else v).entry
      ((j % hd) / q.s2) n ((j % hd) % q.s2)⟩

/-- The across-head mean the claim describes: element `(b, i, j)` is the
sum over the head axis of the per-head weights, divided by the head
count. -/
def headMean (H : ℕ) (w : T4) : T3 :=
  ⟨w.s0, w.s2, w.s3, fun b i j =>
    (∑ h ∈ Finset.range w.s1, w.entry b h i j) / (H : ℚ)⟩

/-- A combined qkv tensor for a 16×16 image at patch size 16 on the
small variant: 2 patches, 3·384 channels. -/
def qkvW : T2 := ⟨2, 1152, fun n j => (n : ℚ) * 2000 + j⟩

/-- A model whose block outputs have batch 1, two tokens, one channel:
token 0 carries 5, token 1 carries 7. -/
def clsImg : Img T3 :=
  ⟨⟨1, 3, 16, 16⟩, fun _ _ => ⟨1, 2, 1, fun _ n _ => if n = 0 then 5 else 7⟩⟩

/-- A 16×16 input (2 patches at patch size 16). -/
def imgA : Img T2 := ⟨⟨1, 3, 16, 16⟩, fun _ _ => default⟩

/-- A 32×32 input (5 patches at patch size 16). -/
def imgB : Img T2 := ⟨⟨1, 3, 32, 32⟩, fun _ _ => default⟩

/-- A constant one-channel token of value `1e-6`: its L2 norm exceeds
`1e-8` but its squared norm does not. -/
noncomputable def tinyTok : ℕ → ℕ → ℕ → ℕ → ℝ := fun _ _ _ _ => 1 / 1000000

/-- A constant one-channel token of value 1. -/
noncomputable def oneTok : ℕ → ℕ → ℕ → ℕ → ℝ := fun _ _ _ _ => 1

/-! ### Claims -/

/-- Claim C1: for every image shape and positive patch size,
`get_patch_num` is `1 + (h // patch_size) * (w // patch_size)`, with
`get_height_patch_num = h // patch_size` and
`get_width_patch_num = w // patch_size`; at height 224, width 224,
patch size 16 the patch count is 197. -/
theorem patch_count_formula (e : VitExtractor) (s : ImgShape)
    (hp : 0 < e.patch_size) :
    (get_patch_num e s
        = 1 + (s.h / e.patch_size) * (s.w / e.patch_size) ∧
      get_height_patch_num e s = s.h / e.patch_size ∧
      get_width_patch_num e s = s.w / e.patch_size) ∧
    get_patch_num ⟨e.mode, 16⟩ ⟨s.b, s.c, 224, 224⟩ = 197 :=
  ⟨⟨rfl, rfl, rfl⟩, by
    norm_num [get_patch_num, get_height_patch_num, get_width_patch_num,
      get_patch_size]⟩

/-- Witness for C1 at the base variant, patch size 16, a (1, 3, 224, 224)
image. -/
theorem patch_count_formula_witness :
    0 < (VitExtractor.mk Mode.base 16).patch_size ∧
    ((get_patch_num ⟨Mode.base, 16⟩ ⟨1, 3, 224, 224⟩
        = 1 + (224 / 16) * (224 / 16) ∧
      get_height_patch_num ⟨Mode.base, 16⟩ ⟨1, 3, 224, 224⟩ = 224 / 16 ∧
      get_width_patch_num ⟨Mode.base, 16⟩ ⟨1, 3, 224, 224⟩ = 224 / 16) ∧
    get_patch_num ⟨Mode.base, 16⟩ ⟨1, 3, 224, 224⟩ = 197) :=
  ⟨by decide, patch_count_formula ⟨Mode.base, 16⟩ ⟨1, 3, 224, 224⟩ (by decide)⟩

/-- Claim C2: every public extraction operation leaves the extractor in
the constructor's reset state — empty handler list, empty capture buffer
for every kind, and the full stage selection for every kind — so a
subsequent operation starts from exactly the initial state. -/
theorem extraction_resets_state (α : Type) (e : VitExtractor) (L layer : ℕ)
    (bm : Bool) (img : Img α) (img2 tgt : Img T2) (img3 : Img T3)
    (img4 : Img T4) (st : HooksState α) (st2 : HooksState T2)
    (st3 : HooksState T3) (st4 : HooksState T4) :
    resetState (initialState α) ∧
    (get_feature_from_input L img st).2 = initialState α ∧
    (get_qkv_feature_from_input L img st).2 = initialState α ∧
    (get_attn_feature_from_input L img st).2 = initialState α ∧
    (get_keys_from_input e L img2 layer st2).2 = initialState T2 ∧
    (get_values_from_input e L img2 layer st2).2 = initialState T2 ∧
    (get_queries_from_input e L img2 layer st2).2 = initialState T2 ∧
    (get_tokens_from_input L img3 layer st3).2 = initialState T3 ∧
    (get_cls_token_from_input L img3 layer st3).2 = initialState T3 ∧
    (get_attentions_from_input e L img4 layer bm st4).2 = initialState T4 ∧
    (get_keys_self_sim_from_input e L img2 layer st2).2 = initialState T2 ∧
    (get_values_self_sim_from_input e L img2 layer st2).2 = initialState T2 ∧
    (get_queries_self_sim_from_input e L img2 layer st2).2 = initialState T2 ∧
    (get_tokens_self_sim_from_input L img3 layer st3).2 = initialState T3 ∧
    (get_keys_cross_sim_from_input e L img2 tgt layer st2).2
      = initialState T2 :=
  ⟨⟨rfl, fun _ => rfl, fun _ => rfl⟩, rfl, rfl, rfl, rfl, rfl, rfl, rfl,
    rfl, rfl, rfl, rfl, rfl, rfl, rfl⟩

/-- Claim C6: the cross-similarity of a token set against itself equals
its self-similarity matrix, entry for entry. -/
theorem cross_sim_self_eq (eps : ℝ) (m : ℕ) (x : ℕ → ℕ → ℕ → ℕ → ℝ)
    (b i j : ℕ) :
    cross_cos_sim eps m x x b i j = attn_cosine_sim eps m x b i j := rfl

/-- Claim C7: every self-similarity matrix is symmetric. -/
theorem selfsim_symmetric (eps : ℝ) (m : ℕ) (x : ℕ → ℕ → ℕ → ℕ → ℝ)
    (b i j : ℕ) :
    attn_cosine_sim eps m x b i j = attn_cosine_sim eps m x b j i := by
  have hdot : dotR m (x 0 b i) (x 0 b j) = dotR m (x 0 b j) (x 0 b i) := by
    unfold dotR
    exact Finset.sum_congr rfl fun k _ => mul_comm _ _
  simp only [attn_cosine_sim]
  rw [hdot, mul_comm (tnorm m (x 0 b i)) (tnorm m (x 0 b j))]

/-- Claim C8: `get_attentions_from_input` with `return_mean` set returns
the raw per-head attention weights at the requested stage together with
the tensor whose every element is the sum over the head axis divided by
the head count. -/
theorem attn_mean_is_head_mean (e : VitExtractor) (L : ℕ) (img : Img T4)
    (layer : ℕ) (st : HooksState T4) :
    (get_attentions_from_input e L img layer true st).1.1
        = (get_attn_feature_from_input L img st).1.getD layer default ∧
    (get_attentions_from_input e L img layer true st).1.2
        = some (headMean (get_head_num e)
            ((get_attn_feature_from_input L img st).1.getD layer default)) ∧
    ∀ b i j, (headMean (get_head_num e)
          ((get_attn_feature_from_input L img st).1.getD layer default)).entry
            b i j
        = (∑ h ∈ Finset.range
            ((get_attn_feature_from_input L img st).1.getD layer default).s1,
            ((get_attn_feature_from_input L img st).1.getD layer
              default).entry b h i j) / (get_head_num e : ℚ) :=
  ⟨rfl, rfl, fun _ _ _ => rfl⟩

/-- Claim C9 (amended): the class-token extraction equals
`tokens[:, 0, :]` — index 0 along the token axis with the batch axis
kept, i.e. the summary-token row for each batch element — not the batch
slice `tokens[0]`. -/
theorem cls_token_is_summary_row (L : ℕ) (img : Img T3) (layer : ℕ)
    (st : HooksState T3) :
    (get_cls_token_from_input L img layer st).1
      = T3.sliceTok0 (get_tokens_from_input L img layer st).1 := rfl

/-- Claim C9 counterexample: on a one-batch, two-token, one-channel block
output, the class token has shape (1, 1) while `tokens[0]` is the whole
(2, 1) token matrix, so the two differ. -/
theorem cls_token_not_batch_slice :
    ¬ T2.Eq (get_cls_token_from_input 1 clsImg 0 (initialState T3)).1
        (T3.slice0 (get_tokens_from_input 1 clsImg 0 (initialState T3)).1) := by
  decide

/-- Claim C10: every variant other than `small` — in particular `tiny` —
gets the base constants: 12 heads, embedding width 768, and the qkv
decomposition reshapes with head count 12 and head dimension 768 / 12. -/
theorem nonsmall_uses_base_constants (e : VitExtractor)
    (h : e.mode ≠ Mode.small) :
    get_head_num e = 12 ∧ get_embedding_dim e = 768 ∧
    ∀ qkv s,
      get_queries_from_qkv e qkv s
          = reshapeQkv (get_patch_num e s) 12 (768 / 12) qkv 0 ∧
      get_keys_from_qkv e qkv s
          = reshapeQkv (get_patch_num e s) 12 (768 / 12) qkv 1 ∧
      get_values_from_qkv e qkv s
          = reshapeQkv (get_patch_num e s) 12 (768 / 12) qkv 2 := by
  have h1 : get_head_num e = 12 := by
    unfold get_head_num
    rw [if_neg h]
  have h2 : get_embedding_dim e = 768 := by
    unfold get_embedding_dim
    rw [if_neg h]
  refine ⟨h1, h2, fun qkv s => ?_⟩
  unfold get_queries_from_qkv get_keys_from_qkv get_values_from_qkv
  rw [h1, h2]
  exact ⟨rfl, rfl, rfl⟩

/-- Helper for C3: undoing `reshapeQkv` in general — if the combined
tensor has shape `(N, 3·H·Dh)`, stacking its three slices along the
triplet axis reproduces it. -/
theorem stack_reshape_eq (N H Dh : ℕ) (qkv : T2) (hpos : 0 < H * Dh)
    (h0 : qkv.s0 = N) (h1 : qkv.s1 = 3 * (H * Dh)) :
    T2.Eq (stackQKV (reshapeQkv N H Dh qkv 0) (reshapeQkv N H Dh qkv 1)
      (reshapeQkv N H Dh qkv 2)) qkv := by
  refine ⟨h0.symm, h1.symm, ?_⟩
  intro i hi j hj
  have hj' : j < 3 * (H * Dh) := hj
  have hij2 : (i * (3 * (H * Dh)) + j) / (3 * (H * Dh)) = i := by
    rw [mul_comm i (3 * (H * Dh)),
      Nat.mul_add_div (Nat.mul_pos (by norm_num) hpos)]
    rw [Nat.div_eq_of_lt hj', Nat.add_zero]
  have hij3 : (i * (3 * (H * Dh)) + j) % (3 * (H * Dh)) = j := by
    rw [mul_comm i (3 * (H * Dh)), Nat.mul_add_mod]
    exact Nat.mod_eq_of_lt hj'
  simp only [stackQKV, reshapeQkv]
  set T := j / (H * Dh) with hT
  set R := j % (H * Dh) with hR
  have ht : T < 3 := by
    rw [hT, Nat.div_lt_iff_lt_mul hpos]
    exact hj'
  have hdm1 : R / Dh * Dh + R % Dh = R := Nat.div_add_mod' R Dh
  have hdm2 : T * (H * Dh) + R = j := by
    rw [hT, hR]
    exact Nat.div_add_mod' j (H * Dh)
  clear_value T R
  clear hT hR
  split_ifs with hc1 hc2
  · rw [hc1] at hdm2
    dsimp only
    rw [hdm1, hdm2, h1, hij2, hij3]
  · rw [hc2] at hdm2
    dsimp only
    rw [hdm1, hdm2, h1, hij2, hij3]
  · have hc3 : T = 2 := by omega
    rw [hc3] at hdm2
    dsimp only
    rw [hdm1, hdm2, h1, hij2, hij3]

/-- Claim C3: for every combined qkv tensor of shape
`(patch_count, 3 × embedding_width)` consistent with the extractor's
constants and image shape, decomposing into queries, keys and values and
re-concatenating along the triplet axis reproduces the tensor exactly. -/
theorem qkv_roundtrip (e : VitExtractor) (qkv : T2) (s : ImgShape)
    (h0 : qkv.s0 = get_patch_num e s)
    (h1 : qkv.s1 = 3 * get_embedding_dim e) :
    T2.Eq (stackQKV (get_queries_from_qkv e qkv s)
      (get_keys_from_qkv e qkv s) (get_values_from_qkv e qkv s)) qkv := by
  have hmul : get_head_num e * (get_embedding_dim e / get_head_num e)
      = get_embedding_dim e := by
    by_cases hm : e.mode = Mode.small <;>
      norm_num [get_head_num, get_embedding_dim, hm]
  have hpos : 0 < get_head_num e * (get_embedding_dim e / get_head_num e) := by
    rw [hmul]
    by_cases hm : e.mode = Mode.small <;>
      norm_num [get_embedding_dim, hm]
  unfold get_queries_from_qkv get_keys_from_qkv get_values_from_qkv
  exact stack_reshape_eq _ _ _ qkv hpos h0 (by rw [h1, hmul])

/-- Witness for C3: a concrete (2, 1152) combined tensor on the small
variant for a 16×16 image at patch size 16. -/
theorem qkv_roundtrip_witness :
    (qkvW.s0 = get_patch_num ⟨Mode.small, 16⟩ ⟨1, 3, 16, 16⟩ ∧
      qkvW.s1 = 3 * get_embedding_dim ⟨Mode.small, 16⟩) ∧
    T2.Eq (stackQKV (get_queries_from_qkv ⟨Mode.small, 16⟩ qkvW ⟨1, 3, 16, 16⟩)
      (get_keys_from_qkv ⟨Mode.small, 16⟩ qkvW ⟨1, 3, 16, 16⟩)
      (get_values_from_qkv ⟨Mode.small, 16⟩ qkvW ⟨1, 3, 16, 16⟩)) qkvW :=
  ⟨⟨by decide, by decide⟩,
    qkv_roundtrip ⟨Mode.small, 16⟩ qkvW ⟨1, 3, 16, 16⟩ (by decide) (by decide)⟩

/-- Claim C4: invoking cross-similarity on two images whose patch counts
differ yields the shape-mismatch failure (the shape assertion fires
before the similarity is computed), never a truncated or padded result. -/
theorem cross_sim_shape_mismatch (e : VitExtractor) (L : ℕ)
    (src tgt : Img T2) (layer : ℕ) (st : HooksState T2)
    (h : get_patch_num e src.shape ≠ get_patch_num e tgt.shape) :
    (get_keys_cross_sim_from_input e L src tgt layer st).1
      = Except.error ExtractError.shapeMismatch := by
  have hc : ¬ (((get_keys_from_input e L src layer st).1.s0,
        (get_keys_from_input e L src layer st).1.s1,
        (get_keys_from_input e L src layer st).1.s2)
      = ((get_keys_from_input e L tgt layer
            (get_keys_from_input e L src layer st).2).1.s0,
         (get_keys_from_input e L tgt layer
            (get_keys_from_input e L src layer st).2).1.s1,
         (get_keys_from_input e L tgt layer
            (get_keys_from_input e L src layer st).2).1.s2)) := by
    intro hcc
    exact h (congrArg (fun p => p.2.1) hcc)
  exact if_neg hc

/-- Witness for C4: a 16×16 source against a 32×32 target at patch size
16 (patch counts 2 and 5). -/
theorem cross_sim_shape_mismatch_witness :
    get_patch_num ⟨Mode.small, 16⟩ imgA.shape
        ≠ get_patch_num ⟨Mode.small, 16⟩ imgB.shape ∧
    (get_keys_cross_sim_from_input ⟨Mode.small, 16⟩ 12 imgA imgB 0
        (initialState T2)).1 = Except.error ExtractError.shapeMismatch :=
  ⟨by decide,
    cross_sim_shape_mismatch ⟨Mode.small, 16⟩ 12 imgA imgB 0
      (initialState T2) (by decide)⟩

/-- Claim C5 (amended): a diagonal entry of the self-similarity matrix
equals 1 whenever the corresponding token's squared L2 norm (its dot
product with itself) is at least the clamp epsilon `1e-8`, i.e. whenever
its norm is at least `1e-4`; a norm merely exceeding `1e-8` is not
sufficient. -/
theorem selfsim_diag_one (m : ℕ) (x : ℕ → ℕ → ℕ → ℕ → ℝ) (b i : ℕ)
    (h : simEps ≤ dotR m (x 0 b i) (x 0 b i)) :
    attn_cosine_sim simEps m x b i i = 1 := by
  have h0 : (0:ℝ) ≤ dotR m (x 0 b i) (x 0 b i) := by
    unfold dotR
    exact Finset.sum_nonneg fun k _ => mul_self_nonneg _
  have heps : (0:ℝ) < simEps := by
    unfold simEps
    positivity
  have hfac : tnorm m (x 0 b i) * tnorm m (x 0 b i)
      = dotR m (x 0 b i) (x 0 b i) := by
    unfold tnorm
    exact Real.mul_self_sqrt h0
  simp only [attn_cosine_sim]
  rw [hfac, max_eq_left h]
  exact div_self (ne_of_gt (lt_of_lt_of_le heps h))

/-- Witness for C5 (amended): a constant token of value 1 has squared
norm 1 ≥ eps and unit diagonal. -/
theorem selfsim_diag_one_witness :
    simEps ≤ dotR 1 (oneTok 0 0 0) (oneTok 0 0 0) ∧
    attn_cosine_sim simEps 1 oneTok 0 0 0 = 1 := by
  have h : simEps ≤ dotR 1 (oneTok 0 0 0) (oneTok 0 0 0) := by
    norm_num [dotR, simEps, oneTok, Finset.sum_range_one]
  exact ⟨h, selfsim_diag_one 1 oneTok 0 0 h⟩

/-- Claim C5 counterexample: a single one-channel token of value `1e-6`
has L2 norm `1e-6`, strictly above the clamp epsilon `1e-8`, yet its
self-similarity diagonal entry is `1e-4`, not 1 — because the clamp acts
on the product of norms, the squared norm `1e-12`. -/
theorem selfsim_diag_cex :
    simEps < tnorm 1 (tinyTok 0 0 0) ∧
    attn_cosine_sim simEps 1 tinyTok 0 0 0 ≠ 1 := by
  have hdot : dotR 1 (tinyTok 0 0 0) (tinyTok 0 0 0)
      = 1 / 1000000000000 := by
    norm_num [dotR, tinyTok, Finset.sum_range_one]
  have hnn : (0:ℝ) ≤ 1 / 1000000000000 := by norm_num
  have hsqrt : Real.sqrt (1 / 1000000000000 : ℝ) = 1 / 1000000 := by
    rw [show (1 / 1000000000000 : ℝ) = (1 / 1000000 : ℝ) ^ 2 by norm_num]
    exact Real.sqrt_sq (by norm_num)
  constructor
  · unfold tnorm
    rw [hdot, hsqrt]
    unfold simEps
    norm_num
  · simp only [attn_cosine_sim]
    unfold tnorm
    rw [hdot, hsqrt]
    rw [show (1 / 1000000 : ℝ) * (1 / 1000000) = 1 / 1000000000000 by norm_num]
    rw [max_eq_right (by unfold simEps; norm_num : (1 / 1000000000000 : ℝ) ≤ simEps)]
    unfold simEps
    norm_num

/-- Witness for C10 at the tiny variant. -/
theorem nonsmall_uses_base_constants_witness :
    (VitExtractor.mk Mode.tiny 16).mode ≠ Mode.small ∧
    (get_head_num ⟨Mode.tiny, 16⟩ = 12 ∧
      get_embedding_dim ⟨Mode.tiny, 16⟩ = 768 ∧
      ∀ qkv s,
        get_queries_from_qkv ⟨Mode.tiny, 16⟩ qkv s
            = reshapeQkv (get_patch_num ⟨Mode.tiny, 16⟩ s) 12 (768 / 12) qkv 0 ∧
        get_keys_from_qkv ⟨Mode.tiny, 16⟩ qkv s
            = reshapeQkv (get_patch_num ⟨Mode.tiny, 16⟩ s) 12 (768 / 12) qkv 1 ∧
        get_values_from_qkv ⟨Mode.tiny, 16⟩ qkv s
            = reshapeQkv (get_patch_num ⟨Mode.tiny, 16⟩ s) 12 (768 / 12) qkv 2) :=
  ⟨by decide, nonsmall_uses_base_constants ⟨Mode.tiny, 16⟩ (by decide)⟩

end SpliceViT
